import Mathlib

/-!
Shallow embedding of the text-to-video app (`app.py`, `utils.py`) and proofs
about its admission queue, model-loading fallback chain, input validation,
storage retention and error handling.

Conventions of the embedding:
* machine integers are `Int`/`Nat`; Python floats that are only compared
  against small decimal constants (`duration`, mtimes) are `Rat`/`Int`;
* fallible Python code is `Option`/`Except PyExn`;
* external outcomes (clock readings, GPU probe results, model-load results,
  generation results) are explicit parameters, so every function is a pure
  function of its inputs and the process state.
-/

/-- Python exception values raised by the modelled stages (all of them
subclasses of `Exception`): `outOfMemory` is `torch.cuda.OutOfMemoryError`,
`runtimeError` is `RuntimeError`, `timeoutError` is `TimeoutError`, and
`otherError` is any other `Exception`.  The payload is `str(e)`. -/
inductive PyExn where
  | outOfMemory (m : String)
  | runtimeError (m : String)
  | timeoutError (m : String)
  | otherError (m : String)
deriving DecidableEq

/-- Python `str(e)` for an exception value. -/
def PyExn.str : PyExn → String
  | .outOfMemory m => m
  | .runtimeError m => m
  | .timeoutError m => m
  | .otherError m => m

/-- Python truthiness of an optional string (`None` and `""` are falsy). -/
def pyTruthyStr : Option String → Bool
  | none => false
  | some s => decide (s ≠ "")

/-! ## InputValidator (utils.py lines 321-378) -/

/-- Python `str.strip()` on the character list of a string. -/
def pyStrip (cs : List Char) : List Char :=
  ((cs.dropWhile Char.isWhitespace).reverse.dropWhile Char.isWhitespace).reverse

/-- A run of decimal digits to its value: the digit part of Python `int(...)`
(digit-grouping underscores are not modelled). -/
def decDigits? (cs : List Char) : Option Nat :=
  if cs ≠ [] ∧ cs.all Char.isDigit then
    some (cs.foldl (fun a c => 10 * a + (c.toNat - 48)) 0)
  else none

/-- Python `int(s)` for a decimal string: strip whitespace, optional sign,
then a nonempty digit run; `none` models the raised `ValueError`. -/
def pyIntOfChars (cs : List Char) : Option Int :=
  match pyStrip cs with
  | [] => none
  | c :: rest =>
    if c = '-' then (decDigits? rest).map (fun n => -(n : Int))
    else if c = '+' then (decDigits? rest).map (fun n => (n : Int))
    else (decDigits? (c :: rest)).map (fun n => (n : Int))

/-- Python `s.split("x")` (single-character separator). -/
def splitOnX : List Char → List (List Char)
  | [] => [[]]
  | c :: rest =>
    if c = 'x' then [] :: splitOnX rest
    else
      match splitOnX rest with
      | [] => [[c]]
      | g :: gs => (c :: g) :: gs

/-- `width, height = map(int, resolution.split("x"))` guarded by
`except (ValueError, AttributeError)` (utils.py lines 368-373): `some (w, h)`
exactly when the string has exactly two `x`-separated fields and both parse as
Python ints; `none` models the raised `ValueError`. -/
def parseResolution (s : String) : Option (Int × Int) :=
  match (splitOnX s.data).map pyIntOfChars with
  | [some w, some h] => some (w, h)
  | _ => none

/-- Prompt rule of `InputValidator.validate` (utils.py lines 350-353);
`max_prompt_length = 1000`. -/
def prompt_errors (p : String) : List String :=
  if p = "" ∨ pyStrip p.data = [] then ["Prompt cannot be empty"]
  else if 1000 < p.length then ["Prompt too long (max 1000 characters)"]
  else []

/-- Duration rule of `InputValidator.validate` (utils.py lines 356-359);
`max_duration = 60.0`. -/
def duration_errors (d : Rat) : List String :=
  if d ≤ 0 then ["Duration must be positive"]
  else if 60 < d then ["Duration exceeds maximum (60.0s)"]
  else []

/-- Scene-count rule of `InputValidator.validate` (utils.py lines 362-365);
`max_scene_count = 10`. -/
def scene_errors (sc : Int) : List String :=
  if sc < 1 then ["Scene count must be at least 1"]
  else if 10 < sc then ["Scene count exceeds maximum (10)"]
  else []

/-- Resolution rule of `InputValidator.validate` (utils.py lines 368-373). -/
def resolution_errors (r : String) : List String :=
  match parseResolution r with
  | some wh => if wh.1 ≤ 0 ∨ wh.2 ≤ 0 then ["Invalid resolution"] else []
  | none => ["Invalid resolution format (expected WxH)"]

/-- The `errors` list accumulated by `InputValidator.validate`, in source
order. -/
def validation_errors (p : String) (d : Rat) (sc : Int) (r : String) : List String :=
  prompt_errors p ++ duration_errors d ++ scene_errors sc ++ resolution_errors r

/-- The dict returned by `InputValidator.validate`. -/
structure ValidationResult where
  valid : Bool
  error : Option String
deriving DecidableEq

/-- Python `"; ".join(errors)`. -/
def joinSemi : List String → String
  | [] => ""
  | [e] => e
  | e :: rest => e ++ "; " ++ joinSemi rest

/-- `InputValidator.validate` (utils.py lines 339-378). -/
def validate (p : String) (d : Rat) (sc : Int) (r : String) : ValidationResult :=
  let errors := validation_errors p d sc r
  { valid := errors.isEmpty
    error := if errors.isEmpty then none else some (joinSemi errors) }

/-! Spec-side rule predicates (the four rules as the spec states them), used
to compare `validate` against its specification. -/

/-- Spec rule: prompt non-empty after trimming and within max length 1000. -/
def specPromptOk (p : String) : Bool :=
  decide (pyStrip p.data ≠ []) && decide (p.length ≤ 1000)

/-- Spec rule: duration strictly positive and at most 60. -/
def specDurationOk (d : Rat) : Bool :=
  decide (0 < d) && decide (d ≤ 60)

/-- Spec rule: scene count in 1..10. -/
def specSceneOk (sc : Int) : Bool :=
  decide (1 ≤ sc) && decide (sc ≤ 10)

/-- Spec rule: resolution parses as width x height with positive components. -/
def specResolutionOk (r : String) : Bool :=
  match parseResolution r with
  | some wh => decide (0 < wh.1) && decide (0 < wh.2)
  | none => false

lemma prompt_errors_eq_nil_iff (p : String) :
    prompt_errors p = [] ↔ specPromptOk p = true := by
  unfold prompt_errors specPromptOk
  by_cases h1 : p = "" ∨ pyStrip p.data = []
  · have htrim : pyStrip p.data = [] := by
      rcases h1 with rfl | h
      · rfl
      · exact h
    simp [h1, htrim]
  · push_neg at h1
    by_cases h2 : 1000 < p.length
    · simp [h1.1, h1.2, h2, not_le.mpr h2]
    · simp [h1.1, h1.2, h2, not_lt.mp h2]

lemma duration_errors_eq_nil_iff (d : Rat) :
    duration_errors d = [] ↔ specDurationOk d = true := by
  unfold duration_errors specDurationOk
  rcases le_or_lt d 0 with h | h
  · simp [h, not_lt.mpr h]
  · rcases le_or_lt d 60 with h2 | h2
    · simp [h, h2, not_le.mpr h, not_lt.mpr h2]
    · simp [h, h2, not_le.mpr h, not_le.mpr h2]

lemma scene_errors_eq_nil_iff (sc : Int) :
    scene_errors sc = [] ↔ specSceneOk sc = true := by
  unfold scene_errors specSceneOk
  rcases lt_or_le sc 1 with h | h
  · simp [h, not_le.mpr h]
  · rcases le_or_lt sc 10 with h2 | h2
    · simp [not_lt.mpr h, h, h2, not_lt.mpr h2]
    · simp [not_lt.mpr h, h, h2, not_le.mpr h2]

lemma resolution_errors_eq_nil_iff (r : String) :
    resolution_errors r = [] ↔ specResolutionOk r = true := by
  unfold resolution_errors specResolutionOk
  rcases h : parseResolution r with _ | wh
  · simp
  · by_cases hle : wh.1 ≤ 0 ∨ wh.2 ≤ 0
    · rcases hle with hle | hle <;> simp [hle, not_lt.mpr hle]
    · push_neg at hle
      simp [hle.1, hle.2, not_le.mpr hle.1, not_le.mpr hle.2]

lemma validation_errors_eq_nil_iff (p : String) (d : Rat) (sc : Int) (r : String) :
    validation_errors p d sc r = [] ↔
      (specPromptOk p && specDurationOk d && specSceneOk sc && specResolutionOk r) = true := by
  simp [validation_errors, List.append_eq_nil, prompt_errors_eq_nil_iff,
    duration_errors_eq_nil_iff, scene_errors_eq_nil_iff, resolution_errors_eq_nil_iff,
    Bool.and_eq_true, and_assoc]

lemma validate_valid_iff (p : String) (d : Rat) (sc : Int) (r : String) :
    (validate p d sc r).valid = true ↔
      (specPromptOk p && specDurationOk d && specSceneOk sc && specResolutionOk r) = true := by
  simp [validate, List.isEmpty_iff, validation_errors_eq_nil_iff]

lemma prompt_errors_length (p : String) :
    (prompt_errors p).length = if specPromptOk p then 0 else 1 := by
  rcases h : specPromptOk p with _ | _
  · have h1 := (prompt_errors_eq_nil_iff p).not.mpr (by simp [h])
    unfold prompt_errors at *
    simp only [Bool.false_eq_true, if_false]
    split
    · simp
    · split
      · simp
      · simp_all
  · have h2 := (prompt_errors_eq_nil_iff p).mpr h
    simp [h2, h]

lemma duration_errors_length (d : Rat) :
    (duration_errors d).length = if specDurationOk d then 0 else 1 := by
  rcases h : specDurationOk d with _ | _
  · have h1 := (duration_errors_eq_nil_iff d).not.mpr (by simp [h])
    unfold duration_errors at *
    simp only [Bool.false_eq_true, if_false]
    split
    · simp
    · split
      · simp
      · simp_all
  · have h2 := (duration_errors_eq_nil_iff d).mpr h
    simp [h2, h]

lemma scene_errors_length (sc : Int) :
    (scene_errors sc).length = if specSceneOk sc then 0 else 1 := by
  rcases h : specSceneOk sc with _ | _
  · have h1 := (scene_errors_eq_nil_iff sc).not.mpr (by simp [h])
    unfold scene_errors at *
    simp only [Bool.false_eq_true, if_false]
    split
    · simp
    · split
      · simp
      · simp_all
  · have h2 := (scene_errors_eq_nil_iff sc).mpr h
    simp [h2, h]

lemma resolution_errors_length (r : String) :
    (resolution_errors r).length = if specResolutionOk r then 0 else 1 := by
  rcases h : specResolutionOk r with _ | _
  · have h1 := (resolution_errors_eq_nil_iff r).not.mpr (by simp [h])
    unfold resolution_errors at *
    simp only [Bool.false_eq_true, if_false]
    split
    · split
      · simp
      · simp_all
    · simp
  · have h2 := (resolution_errors_eq_nil_iff r).mpr h
    simp [h2, h]

/-- C6: `validate` checks all rules without short-circuiting: it is valid iff
every rule (prompt, duration, scene count, resolution) passes; the error
message is `none` iff valid; the error list carries exactly one complaint per
violated rule; when invalid the message is the `"; "`-join of those
complaints; and the example with empty prompt, duration 65 and resolution
"bad" yields exactly the three distinct expected complaints, joined. -/
theorem C6_validate_all_rules :
    (∀ p d sc r, (validate p d sc r).valid = true ↔
        (specPromptOk p && specDurationOk d && specSceneOk sc && specResolutionOk r) = true) ∧
    (∀ p d sc r, (validate p d sc r).error = none ↔ (validate p d sc r).valid = true) ∧
    (∀ p d sc r, (validation_errors p d sc r).length =
        ((if specPromptOk p then 0 else 1) + (if specDurationOk d then 0 else 1) +
         (if specSceneOk sc then 0 else 1) + (if specResolutionOk r then 0 else 1))) ∧
    (∀ p d sc r, (validate p d sc r).valid = false →
        (validate p d sc r).error = some (joinSemi (validation_errors p d sc r))) ∧
    (validate "" 65 1 "bad" =
      { valid := false
        error := some ("Prompt cannot be empty; Duration exceeds maximum (60.0s); " ++
          "Invalid resolution format (expected WxH)") } ∧
      (validation_errors "" 65 1 "bad").length = 3 ∧
      (validation_errors "" 65 1 "bad").Nodup) := by
  refine ⟨validate_valid_iff, ?_, ?_, ?_, ?_, ?_, ?_⟩
  · intro p d sc r
    by_cases h : (validation_errors p d sc r).isEmpty <;> simp [validate, h]
  · intro p d sc r
    simp only [validation_errors, List.length_append, prompt_errors_length,
      duration_errors_length, scene_errors_length, resolution_errors_length]
  · intro p d sc r h
    by_cases he : (validation_errors p d sc r).isEmpty
    · simp [validate, he] at h
    · simp [validate, he]
  · decide
  · decide
  · decide

/-- Witness for C6: the three-violation example is invalid, so by the theorem
its error message is the join of its error list. -/
theorem C6_validate_all_rules_witness :
    (validate "" 65 1 "bad").error = some (joinSemi (validation_errors "" 65 1 "bad")) :=
  C6_validate_all_rules.2.2.2.1 "" 65 1 "bad" (by decide)

/-! ## ModelLoader (utils.py lines 87-225) -/

/-- A loaded (mock) model object.  `partHook` models
`hasattr(model, "get_partial_output")`: `none` when the attribute is absent
(true of every mock model the tiers build), `some p` when it is present and
returns `p`. -/
structure ModelHandle where
  partHook : Option (Option String)
deriving DecidableEq

/-- The `current_model` / `current_model_name` fields of `ModelLoader`. -/
structure LoaderState where
  current_model : Option ModelHandle
  current_model_name : String
deriving DecidableEq

/-- `ModelLoader.fallback_chain` together with the outcome each tier's load
procedure would produce on this call (the outcomes are determined by the
GPU/VRAM probe results, which are external). -/
abbrev TierChain := List (String × Except PyExn (ModelHandle × String))

/-- Python `f"{last_error}"` for the loop's `last_error` variable. -/
def pyStrOptExn : Option PyExn → String
  | none => "None"
  | some e => e.str

/-- The loop body of `ModelLoader.load_with_fallback` (utils.py lines
209-225), with the running `last_error`.  Besides the source's result it also
returns the trace of tier names whose load procedure was invoked. -/
def lwfGo : TierChain → Option PyExn →
    (Except PyExn ((ModelHandle × String) × LoaderState)) × List String
  | [], lastError =>
    (.error (.runtimeError
       ("All model loading attempts failed. Last error: " ++ pyStrOptExn lastError)), [])
  | t :: rest, _lastError =>
    match t.2 with
    | .ok mn =>
      (.ok (mn, { current_model := some mn.1, current_model_name := mn.2 }), [t.1])
    | .error e => ((lwfGo rest (some e)).1, t.1 :: (lwfGo rest (some e)).2)

/-- `ModelLoader.load_with_fallback` (utils.py lines 207-225): result is the
`(model, name)` pair plus the updated loader state on success, or the
aggregated `RuntimeError` when every tier fails; the second component is the
trace of attempted tier names. -/
def load_with_fallback (chain : TierChain) :
    (Except PyExn ((ModelHandle × String) × LoaderState)) × List String :=
  lwfGo chain none

lemma lwfGo_first_ok (pre : TierChain) : ∀ (acc : Option PyExn) (name : String)
    (model : ModelHandle) (mname : String) (rest : TierChain),
    (∀ p ∈ pre, ∃ e, p.2 = Except.error e) →
    lwfGo (pre ++ (name, Except.ok (model, mname)) :: rest) acc =
      (Except.ok ((model, mname),
         { current_model := some model, current_model_name := mname }),
       pre.map Prod.fst ++ [name]) := by
  induction pre with
  | nil =>
    intro acc name model mname rest _
    simp [lwfGo]
  | cons hd tl ih =>
    intro acc name model mname rest hall
    obtain ⟨e, he⟩ := hall hd (by simp)
    have htl : ∀ p ∈ tl, ∃ e, p.2 = Except.error e := fun p hp => hall p (by simp [hp])
    simp [lwfGo, he, ih (some e) name model mname rest htl]

lemma lwfGo_error_iff (chain : TierChain) : ∀ acc : Option PyExn,
    (∃ e tr, lwfGo chain acc = (Except.error e, tr)) ↔
      (∀ p ∈ chain, ∃ e, p.2 = Except.error e) := by
  induction chain with
  | nil =>
    intro acc
    simp [lwfGo]
  | cons hd tl ih =>
    intro acc
    cases hhd : hd.2 with
    | ok mn =>
      constructor
      · intro hex
        rcases hex with ⟨e, tr, htr⟩
        simp [lwfGo, hhd] at htr
      · intro hall
        obtain ⟨e, he⟩ := hall hd (by simp)
        rw [hhd] at he
        cases he
    | error e =>
      constructor
      · intro hex p hp
        rcases hex with ⟨e2, tr, htr⟩
        simp only [lwfGo, hhd] at htr
        rcases List.mem_cons.mp hp with rfl | hp2
        · exact ⟨e, hhd⟩
        · refine ((ih (some e)).mp ?_) p hp2
          rcases hgo : lwfGo tl (some e) with ⟨res, tr2⟩
          cases res with
          | error e3 => exact ⟨e3, tr2, rfl⟩
          | ok v =>
            rw [hgo] at htr
            simp at htr
      · intro hall
        have htl : ∀ p ∈ tl, ∃ e2, p.2 = Except.error e2 := fun p hp => hall p (by simp [hp])
        obtain ⟨e2, tr2, htr⟩ := (ih (some e)).mpr htl
        exact ⟨e2, hd.1 :: tr2, by simp [lwfGo, hhd, htr]⟩

lemma lwfGo_all_fail (chain : TierChain) : ∀ (acc : Option PyExn)
    (last : String × Except PyExn (ModelHandle × String)) (eLast : PyExn),
    (∀ p ∈ chain, ∃ e, p.2 = Except.error e) →
    chain.getLast? = some last → last.2 = Except.error eLast →
    lwfGo chain acc =
      (Except.error (PyExn.runtimeError
         ("All model loading attempts failed. Last error: " ++ eLast.str)),
       chain.map Prod.fst) := by
  induction chain with
  | nil =>
    intro acc last eLast _ hlast _
    simp at hlast
  | cons hd tl ih =>
    intro acc last eLast hall hlast hErr
    obtain ⟨e, he⟩ := hall hd (by simp)
    rcases htl : tl with _ | ⟨hd2, tl2⟩
    · subst htl
      simp only [List.getLast?_singleton, Option.some_inj] at hlast
      subst hlast
      rw [he] at hErr
      cases hErr
      simp [lwfGo, he, pyStrOptExn]
    · rw [← htl]
      have hlast2 : tl.getLast? = some last := by
        rw [htl] at hlast ⊢
        simpa [List.getLast?_cons_cons] using hlast
      have htlall : ∀ p ∈ tl, ∃ e2, p.2 = Except.error e2 := fun p hp => hall p (by simp [hp])
      have hne : tl ≠ [] := by simp [htl]
      simp [lwfGo, he, ih (some e) last eLast htlall hlast2 hErr]

lemma lwfGo_trace_sublist (chain : TierChain) : ∀ acc : Option PyExn,
    (lwfGo chain acc).2.Sublist (chain.map Prod.fst) := by
  induction chain with
  | nil => intro acc; simp [lwfGo]
  | cons hd tl ih =>
    intro acc
    cases hhd : hd.2 with
    | ok mn =>
      simp only [lwfGo, hhd, List.map_cons]
      exact (List.nil_sublist _).cons₂ hd.1
    | error e =>
      simp only [lwfGo, hhd, List.map_cons]
      exact (ih (some e)).cons₂ hd.1

/-- C5: the first tier whose load procedure succeeds wins — its handle and
name are returned and recorded as current model, earlier failures
notwithstanding; the aggregated `RuntimeError` is raised iff every tier
fails, and then its message contains the last underlying error and no handle
is returned. -/
theorem C5_fallback_first_success :
    (∀ (pre : TierChain) (name : String) (model : ModelHandle) (mname : String)
        (rest : TierChain),
        (∀ p ∈ pre, ∃ e, p.2 = Except.error e) →
        load_with_fallback (pre ++ (name, Except.ok (model, mname)) :: rest) =
          (Except.ok ((model, mname),
             { current_model := some model, current_model_name := mname }),
           pre.map Prod.fst ++ [name])) ∧
    (∀ chain : TierChain,
        (∃ e tr, load_with_fallback chain = (Except.error e, tr)) ↔
          (∀ p ∈ chain, ∃ e, p.2 = Except.error e)) ∧
    (∀ (chain : TierChain) (last : String × Except PyExn (ModelHandle × String))
        (eLast : PyExn),
        (∀ p ∈ chain, ∃ e, p.2 = Except.error e) →
        chain.getLast? = some last → last.2 = Except.error eLast →
        load_with_fallback chain =
          (Except.error (PyExn.runtimeError
             ("All model loading attempts failed. Last error: " ++ eLast.str)),
           chain.map Prod.fst)) := by
  refine ⟨?_, ?_, ?_⟩
  · intro pre name model mname rest hall
    exact lwfGo_first_ok pre none name model mname rest hall
  · intro chain
    exact lwfGo_error_iff chain none
  · intro chain last eLast hall hlast hErr
    exact lwfGo_all_fail chain none last eLast hall hlast hErr

/-- Witness for C5: tier 1 and tier 2 raise, tier 3 succeeds — the returned
name is tier 3's and no aggregated failure is raised. -/
theorem C5_fallback_first_success_witness :
    load_with_fallback
        [("open-sora", Except.error (PyExn.runtimeError "GPU not available for Open-Sora")),
         ("cogvideox-5b", Except.error (PyExn.runtimeError "GPU not available")),
         ("cogvideox-2b", Except.ok ({ partHook := none }, "cogvideox-2b")),
         ("svd", Except.ok ({ partHook := none }, "svd"))] =
      (Except.ok (({ partHook := none }, "cogvideox-2b"),
         { current_model := some { partHook := none }, current_model_name := "cogvideox-2b" }),
       ["open-sora", "cogvideox-5b", "cogvideox-2b"]) :=
  C5_fallback_first_success.1
    [("open-sora", Except.error (PyExn.runtimeError "GPU not available for Open-Sora")),
     ("cogvideox-5b", Except.error (PyExn.runtimeError "GPU not available"))]
    "cogvideox-2b" { partHook := none } "cogvideox-2b"
    [("svd", Except.ok ({ partHook := none }, "svd"))]
    (by intro p hp
        rcases List.mem_cons.mp hp with rfl | hp2
        · exact ⟨PyExn.runtimeError "GPU not available for Open-Sora", rfl⟩
        · rcases List.mem_cons.mp hp2 with rfl | hp3
          · exact ⟨PyExn.runtimeError "GPU not available", rfl⟩
          · cases hp3)

/-- The source's four-tier chain on a run where every tier load succeeds
(e.g. ample GPU), used to exhibit that tiers after the winner are not
attempted. -/
def chainAllOk : TierChain :=
  [("open-sora", Except.ok ({ partHook := none }, "open-sora")),
   ("cogvideox-5b", Except.ok ({ partHook := none }, "cogvideox-5b")),
   ("cogvideox-2b", Except.ok ({ partHook := none }, "cogvideox-2b")),
   ("svd", Except.ok ({ partHook := none }, "svd"))]

/-- C10 counterexample: when the first tier succeeds, the second tier's load
procedure is invoked zero times in that call, so "each tier's load procedure
attempted exactly once per call" fails as stated. -/
theorem C10_counterexample :
    (load_with_fallback chainAllOk).2 = ["open-sora"] ∧
    ¬ ((load_with_fallback chainAllOk).2.count "cogvideox-5b" = 1) := by
  constructor
  · rfl
  · decide

/-- C10 (amended): tier selection is deterministic — identical tier outcomes
give identical results and traces, with no randomness; each tier's load
procedure is attempted at most once per call (the tiers before and including
the winner exactly once, later tiers not at all), and when every tier fails
each tier is attempted exactly once. -/
theorem C10_fallback_deterministic :
    (∀ c1 c2 : TierChain, c1 = c2 → load_with_fallback c1 = load_with_fallback c2) ∧
    (∀ chain : TierChain, (load_with_fallback chain).2.Sublist (chain.map Prod.fst)) ∧
    (∀ chain : TierChain, (chain.map Prod.fst).Nodup →
        ∀ n, (load_with_fallback chain).2.count n ≤ 1) ∧
    (∀ (pre : TierChain) (name : String) (model : ModelHandle) (mname : String)
        (rest : TierChain),
        (∀ p ∈ pre, ∃ e, p.2 = Except.error e) →
        (load_with_fallback (pre ++ (name, Except.ok (model, mname)) :: rest)).2 =
          pre.map Prod.fst ++ [name]) ∧
    (∀ chain : TierChain, (∀ p ∈ chain, ∃ e, p.2 = Except.error e) →
        (load_with_fallback chain).2 = chain.map Prod.fst) := by
  refine ⟨?_, ?_, ?_, ?_, ?_⟩
  · intro c1 c2 h
    rw [h]
  · intro chain
    exact lwfGo_trace_sublist chain none
  · intro chain hnd n
    calc (load_with_fallback chain).2.count n
        ≤ (chain.map Prod.fst).count n :=
          ((lwfGo_trace_sublist chain none).subperm).count_le n
      _ ≤ 1 := List.nodup_iff_count_le_one.mp hnd n
  · intro pre name model mname rest hall
    rw [show load_with_fallback (pre ++ (name, Except.ok (model, mname)) :: rest) =
      lwfGo (pre ++ (name, Except.ok (model, mname)) :: rest) none from rfl]
    rw [lwfGo_first_ok pre none name model mname rest hall]
  · intro chain hall
    rcases hc : chain with _ | ⟨hd, tl⟩
    · rfl
    · rw [← hc]
      have hne : chain ≠ [] := by simp [hc]
      have hsome : chain.getLast?.isSome := List.getLast?_isSome.mpr hne
      obtain ⟨last, hlast⟩ := Option.isSome_iff_exists.mp hsome
      obtain ⟨hne2, hx⟩ := List.mem_getLast?_eq_getLast (l := chain) (x := last)
        (by simp [Option.mem_def, hlast])
      obtain ⟨eLast, hErr⟩ := hall last (hx ▸ List.getLast_mem hne2)
      rw [show load_with_fallback chain = lwfGo chain none from rfl]
      rw [lwfGo_all_fail chain none last eLast hall hlast hErr]

/-- Witness for C10 (amended): on the all-success chain the trace counts
each tier name at most once. -/
theorem C10_fallback_deterministic_witness :
    (load_with_fallback chainAllOk).2.count "open-sora" ≤ 1 :=
  C10_fallback_deterministic.2.2.1 chainAllOk (by decide) "open-sora"

/-! ## StorageManager.get_safe_temp_path (utils.py lines 396-401) -/

/-- `StorageManager.get_safe_temp_path`.  The call reads the clock
(`timestamp = int(time.time() * 1000000)`, microseconds) and the process id;
both are explicit arguments here.  `md5hex8` stands for
`hashlib.md5(f"{timestamp}{os.getpid()}".encode()).hexdigest()[:8]`: an
arbitrary function of the timestamp and the pid (the md5 digest itself is
not modelled; nothing below depends on it, only on what it is a function
of).  `pre` and `suf` are the two name parameters of the call (defaults
`"temp"` and `".tmp"`); the result is `TEMP_DIR / filename`. -/
def get_safe_temp_path (md5hex8 : Nat → Nat → String) (timestamp pid : Nat)
    (pre suf : String) : String :=
  "temp/" ++ (pre ++ "_" ++ toString timestamp ++ "_" ++ md5hex8 timestamp pid ++ suf)

/-- C1 (refuted — code bug): the path is a pure function of the clock
reading, the pid and the two name parameters; the "random" component is a
hash of the timestamp and pid and adds no entropy beyond them.  Two calls in
one process that observe the same microsecond timestamp therefore return the
identical path, whatever the hash computes, so the claimed pairwise
distinctness of all calls in a process fails. -/
theorem C1_temp_path_collision (md5hex8 : Nat → Nat → String) :
    ¬ ([get_safe_temp_path md5hex8 1759999999123456 4242 "temp" ".tmp",
        get_safe_temp_path md5hex8 1759999999123456 4242 "temp" ".tmp"].Nodup) := by
  simp

/-! ## StorageManager.cleanup_old_files (utils.py lines 403-440) -/

/-- A file of the managed output directory: path and modification time
(seconds). -/
structure FileEntry where
  name : String
  mtime : Int
deriving DecidableEq

/-- The descending-mtime order used by
`sorted(..., key=lambda p: p.stat().st_mtime, reverse=True)`. -/
def mtimeGe (a b : FileEntry) : Prop := b.mtime ≤ a.mtime

instance : DecidableRel mtimeGe :=
  fun a b => inferInstanceAs (Decidable (b.mtime ≤ a.mtime))

instance : IsTotal FileEntry mtimeGe :=
  ⟨fun a b => le_total b.mtime a.mtime⟩

instance : IsTrans FileEntry mtimeGe :=
  ⟨fun _a _b _c hab hbc => le_trans hbc hab⟩

/-- Age-pass keep predicate: a file survives the age pass iff its mtime is
not below `cutoff_time = now - max_age_days * 24 * 60 * 60` (the deletion
condition in utils.py line 413 is `file_age < cutoff_time`). -/
def inWindow (now : Int) (max_age_days : Nat) (f : FileEntry) : Bool :=
  !(decide (f.mtime < now - (max_age_days : Int) * 86400))

/-- `StorageManager.cleanup_old_files` acting on the output directory
contents (files in directory order; every per-file delete succeeds).  First
the age pass deletes files older than the cutoff; then the survivors are
sorted by mtime descending (Python `sorted` is stable, as is
`List.insertionSort`) and every file beyond the `max_files`-th is deleted.
The result is the directory contents afterwards, in the original order. -/
def cleanup_old_files (now : Int) (max_age_days max_files : Nat)
    (dir : List FileEntry) : List FileEntry :=
  let kept := dir.filter (inWindow now max_age_days)
  let files := List.insertionSort mtimeGe kept
  if max_files < files.length then
    kept.filter (fun f => !(decide (f ∈ files.drop max_files)))
  else kept

lemma cleanup_mem (now : Int) (a m : Nat) (dir : List FileEntry) :
    ∀ f ∈ cleanup_old_files now a m dir, f ∈ dir ∧ inWindow now a f = true := by
  intro f hf
  simp only [cleanup_old_files] at hf
  split at hf
  · have h1 := List.mem_filter.mp hf
    have h2 := List.mem_filter.mp h1.1
    exact ⟨h2.1, h2.2⟩
  · have h2 := List.mem_filter.mp hf
    exact ⟨h2.1, h2.2⟩

lemma sorted_take_drop_rel (m : Nat) (l : List FileEntry)
    (hs : List.Sorted mtimeGe l) :
    ∀ g ∈ l.take m, ∀ f ∈ l.drop m, mtimeGe g f := by
  have hp : List.Pairwise mtimeGe (l.take m ++ l.drop m) := by
    rw [List.take_append_drop]
    exact hs
  exact (List.pairwise_append.mp hp).2.2

lemma cleanup_length (now : Int) (a m : Nat) (dir : List FileEntry)
    (hnd : dir.Nodup) :
    (cleanup_old_files now a m dir).length =
      min m (dir.filter (inWindow now a)).length := by
  have hkeptnd : (dir.filter (inWindow now a)).Nodup := hnd.filter _
  have hperm : List.Perm (List.insertionSort mtimeGe (dir.filter (inWindow now a)))
      (dir.filter (inWindow now a)) := List.perm_insertionSort mtimeGe _
  have hLnd : (List.insertionSort mtimeGe (dir.filter (inWindow now a))).Nodup :=
    hperm.nodup_iff.mpr hkeptnd
  simp only [cleanup_old_files]
  split
  · rename_i hlen
    set kept := dir.filter (inWindow now a) with hkept
    set L := List.insertionSort mtimeGe kept with hL
    have hfperm : List.Perm (kept.filter (fun f => !(decide (f ∈ L.drop m))))
        (L.filter (fun f => !(decide (f ∈ L.drop m)))) := (hperm.filter _).symm
    have hsplitP : ∀ P : FileEntry → Bool,
        L.filter P = (L.take m).filter P ++ (L.drop m).filter P := by
      intro P
      conv_lhs => rw [← List.take_append_drop m L]
      rw [List.filter_append]
    have hsplit : L.filter (fun f => !(decide (f ∈ L.drop m))) =
        (L.take m).filter (fun f => !(decide (f ∈ L.drop m))) ++
        (L.drop m).filter (fun f => !(decide (f ∈ L.drop m))) :=
      hsplitP (fun f => !(decide (f ∈ L.drop m)))
    have hdropnil : (L.drop m).filter (fun f => !(decide (f ∈ L.drop m))) = [] := by
      apply List.filter_eq_nil_iff.mpr
      intro f hf
      simp [hf]
    have htdnd : ((L.take m) ++ (L.drop m)).Nodup := by
      rw [List.take_append_drop]
      exact hLnd
    have hdisj := List.disjoint_of_nodup_append htdnd
    have htakeself : (L.take m).filter (fun f => !(decide (f ∈ L.drop m))) = L.take m := by
      apply List.filter_eq_self.mpr
      intro f hf
      have hnotin : f ∉ L.drop m := fun hcon => hdisj hf hcon
      simp [hnotin]
    have hlen2 : (kept.filter (fun f => !(decide (f ∈ L.drop m)))).length = (L.take m).length :=
      hfperm.length_eq.trans (by rw [hsplit, hdropnil, htakeself, List.append_nil])
    rw [hlen2, List.length_take, hperm.length_eq]
  · rename_i hlen
    push_neg at hlen
    rw [List.length_insertionSort] at hlen
    exact (Nat.min_eq_right hlen).symm

lemma cleanup_newest (now : Int) (a m : Nat) (dir : List FileEntry) :
    ∀ f ∈ dir, inWindow now a f = true → f ∉ cleanup_old_files now a m dir →
    ∀ g ∈ cleanup_old_files now a m dir, f.mtime ≤ g.mtime := by
  intro f hf hw hnot g hg
  have hfkept : f ∈ dir.filter (inWindow now a) := List.mem_filter.mpr ⟨hf, hw⟩
  simp only [cleanup_old_files] at hnot hg
  by_cases hlen :
      m < (List.insertionSort mtimeGe (List.filter (inWindow now a) dir)).length
  · rw [if_pos hlen] at hnot hg
    set kept := dir.filter (inWindow now a) with hkept
    set L := List.insertionSort mtimeGe kept with hL
    have hfin : f ∈ L.drop m := by
      by_contra hcon
      exact hnot (List.mem_filter.mpr ⟨hfkept, by simp [hcon]⟩)
    have hgmem := List.mem_filter.mp hg
    have hgL : g ∈ L := (List.perm_insertionSort mtimeGe kept).symm.mem_iff.mp hgmem.1
    have hgnotdrop : g ∉ L.drop m := by
      intro hcon
      have := hgmem.2
      simp [hcon] at this
    have hgtake : g ∈ L.take m := by
      rcases List.mem_append.mp (by rw [List.take_append_drop m L]; exact hgL) with h | h
      · exact h
      · exact absurd h hgnotdrop
    exact sorted_take_drop_rel m L (List.sorted_insertionSort mtimeGe kept) g hgtake f hfin
  · rw [if_neg hlen] at hnot
    exact absurd hfkept hnot

lemma cleanup_idem (now : Int) (a m : Nat) (dir : List FileEntry)
    (hnd : dir.Nodup) :
    cleanup_old_files now a m (cleanup_old_files now a m dir) =
      cleanup_old_files now a m dir := by
  have hsub := cleanup_mem now a m dir
  have hlen := cleanup_length now a m dir hnd
  set res := cleanup_old_files now a m dir with hres
  have h1 : res.filter (inWindow now a) = res :=
    List.filter_eq_self.mpr (fun f hf => (hsub f hf).2)
  have h2 : ¬ (m < (List.insertionSort mtimeGe (res.filter (inWindow now a))).length) := by
    rw [List.length_insertionSort, h1, hlen]
    exact Nat.not_lt.mpr (Nat.min_le_left m _)
  simp only [cleanup_old_files]
  rw [if_neg h2]
  exact h1

/-- Day-0 file for the retention example (`now` is 10 days = 864000 s). -/
def exampleNew : FileEntry := { name := "outputs/new.mp4", mtime := 864000 }

/-- Ten-day-old file for the retention example. -/
def exampleOld : FileEntry := { name := "outputs/old.mp4", mtime := 0 }

/-- Sixty files, one per hour going back, all within the 7-day age window at
`now = 0`. -/
def dir60 : List FileEntry :=
  (List.range 60).map
    (fun i => { name := "outputs/video" ++ toString i ++ ".mp4", mtime := -((i : Int) * 3600) })

/-- The 50 newest of `dir60` (indices 0..49), in directory order. -/
def dir60kept : List FileEntry :=
  (List.range 50).map
    (fun i => { name := "outputs/video" ++ toString i ++ ".mp4", mtime := -((i : Int) * 3600) })

/-- C7: after `cleanup_old_files` the remaining files are exactly the
at-most-`max_files` newest among the files inside the age window: every
survivor was in the directory and inside the window; with distinct directory
entries the survivor count is `min max_files (in-window count)`; any
in-window file that was removed is no newer than any survivor; an immediate
re-run removes nothing; with files at day 0 and day 10 and
`max_age_days = 7` only the 10-day-old file is removed; and with 60
in-window files and `max_files = 50` exactly the 10 oldest are removed. -/
theorem C7_retention_policy :
    (∀ (now : Int) (a m : Nat) (dir : List FileEntry),
        ∀ f ∈ cleanup_old_files now a m dir, f ∈ dir ∧ inWindow now a f = true) ∧
    (∀ (now : Int) (a m : Nat) (dir : List FileEntry), dir.Nodup →
        (cleanup_old_files now a m dir).length =
          min m (dir.filter (inWindow now a)).length) ∧
    (∀ (now : Int) (a m : Nat) (dir : List FileEntry),
        ∀ f ∈ dir, inWindow now a f = true → f ∉ cleanup_old_files now a m dir →
        ∀ g ∈ cleanup_old_files now a m dir, f.mtime ≤ g.mtime) ∧
    (∀ (now : Int) (a m : Nat) (dir : List FileEntry), dir.Nodup →
        cleanup_old_files now a m (cleanup_old_files now a m dir) =
          cleanup_old_files now a m dir) ∧
    cleanup_old_files 864000 7 50 [exampleNew, exampleOld] = [exampleNew] ∧
    cleanup_old_files 0 7 50 dir60 = dir60kept := by
  refine ⟨cleanup_mem, cleanup_length, cleanup_newest, cleanup_idem, ?_, ?_⟩
  · decide
  · decide

/-- Witness for C7: the survivor count on the concrete 60-file directory. -/
theorem C7_retention_policy_witness :
    (cleanup_old_files 0 7 50 dir60).length =
      min 50 ((dir60.filter (inWindow 0 7)).length) :=
  C7_retention_policy.2.1 0 7 50 dir60 (by decide)

/-! ## app.py: global state and `generate_video` -/

/-- `job_queue = queue.Queue(maxsize=50)` (app.py line 39). -/
def MAX_QUEUE_SIZE : Nat := 50

/-- `DEBUG_MODE` with its default environment value `"False"`. -/
def DEBUG_MODE : Bool := false

/-- `MAX_FILE_AGE_DAYS` default (utils.py line 27). -/
def MAX_FILE_AGE_DAYS : Nat := 7

/-- `MAX_FILES` default (utils.py line 28). -/
def MAX_FILES : Nat := 50

/-- The `GenerationJob` dataclass (app.py lines 50-60). -/
structure GenerationJob where
  job_id : String
  prompt : String
  duration : Rat
  fps : Nat
  resolution : Int × Int
  music_path : Option String
  scene_count : Int
  timestamp : Int
deriving DecidableEq

/-- The process state: the module-level queue and job-tracking dict of
app.py, `QueueManager.active_jobs`, the loader state, the
`VideoProcessor.partial_output` slot, the output directory contents and the
`ErrorHandler.error_log` (kept as the list of context tags, in order). -/
structure AppState where
  jobQueue : List GenerationJob
  appActiveJobs : List String
  qmActiveJobs : List (String × Bool)
  loader : LoaderState
  partOutput : Option String
  outputFiles : List FileEntry
  errorLog : List String
deriving DecidableEq

/-- External observations made during one `generate_video` call: the two
clock readings, the tier-load outcomes, the generation outcome, whether the
music file exists on disk, and the `add_music` outcome. -/
structure GenEnv where
  nowMs : Nat
  now : Int
  chain : TierChain
  genOutcome : Except PyExn Unit
  musicExists : Bool
  addMusicOutcome : Except PyExn Unit

/-- The arguments of one `generate_video` call. -/
structure GenInputs where
  prompt : String
  duration : Rat
  fps : Nat
  resolution : String
  musicFile : Option String
  scene_count : Int

/-- `ErrorHandler.format_user_error` (utils.py lines 75-85); note the Python
truthiness test on `technical_details`. -/
def format_user_error (title message : String) (show_technical : Bool)
    (technical_details : Option String) : String :=
  if show_technical && pyTruthyStr technical_details then
    "❌ " ++ title ++ "\n\n" ++ message ++ "\n\nTechnical Details:\n" ++
      technical_details.getD ""
  else
    "❌ " ++ title ++ "\n\n" ++ message

/-- `ErrorHandler.log_error`: appends a record (kept here as its context
tag) to the error log. -/
def log_error (st : AppState) (context : String) : AppState :=
  { st with errorLog := st.errorLog ++ [context] }

/-- `VideoProcessor.generate` (utils.py lines 234-274): on success returns
the artifact path and clears `partial_output`; on
`torch.cuda.OutOfMemoryError` stores the model's partial output if the model
has a `get_partial_output` attribute, then re-raises; any other exception is
logged and re-raised with `partial_output` untouched.  Returns the raised or
returned value together with the new `partial_output` slot. -/
def vp_generate (env : GenEnv) (model : ModelHandle) (partOut : Option String) :
    Except PyExn String × Option String :=
  match env.genOutcome with
  | .ok _ => (.ok ("outputs/video_" ++ toString env.now ++ ".mp4"), none)
  | .error e =>
    match e with
    | .outOfMemory _ =>
      (.error e, match model.partHook with
        | some p => p
        | none => partOut)
    | _ => (.error e, partOut)

/-- `VideoProcessor.add_music` (utils.py lines 280-290): on success copies
the video to a new path and returns it, otherwise re-raises. -/
def vp_add_music (env : GenEnv) : Except PyExn String :=
  match env.addMusicOutcome with
  | .ok _ => .ok ("outputs/video_with_music_" ++ toString env.now ++ ".mp4")
  | .error e => .error e

/-- `QueueManager.get_status` (utils.py lines 300-308). -/
def qm_get_status (st : AppState) : String :=
  "Queue: " ++ toString st.jobQueue.length ++ " pending, " ++
    toString st.qmActiveJobs.length ++ " active"

/-- `QueueManager.cancel_job` (utils.py lines 310-319): flips the cancelled
flag and reports `true` iff the id is tracked. -/
def qm_cancel_job (job_id : String) (aj : List (String × Bool)) :
    Bool × List (String × Bool) :=
  if (aj.lookup job_id).isSome then
    (true, aj.map (fun p => if p.1 = job_id then (p.1, true) else p))
  else (false, aj)

/-- App-level `cancel_job` (app.py lines 252-262). -/
def cancel_job (job_id : String) (st : AppState) : String × AppState :=
  let r := qm_cancel_job job_id st.qmActiveJobs
  ((if r.1 then "Job " ++ job_id ++ " cancelled successfully"
    else "Job " ++ job_id ++ " not found or already completed"),
   { st with qmActiveJobs := r.2 })

/-- App-level `get_queue_status` (app.py lines 244-250). -/
def get_queue_status (st : AppState) : String := qm_get_status st

/-- The `finally` block of the inner try (app.py lines 228-232): drop the
job id from the module-level tracking dict if present. -/
def finallyCleanup (job_id : String) (st : AppState) : AppState :=
  if job_id ∈ st.appActiveJobs then
    { st with appActiveJobs := st.appActiveJobs.erase job_id }
  else st

/-- The four `except` clauses of the inner try (app.py lines 177-226),
matched in source order (`torch.cuda.OutOfMemoryError` before its superclass
`RuntimeError`), each followed by the `finally` block. -/
def handle_exn (e : PyExn) (job_id : String) (st : AppState) :
    (Option String × Option String × String) × AppState :=
  match e with
  | .outOfMemory m =>
    let st2 := log_error st "oom_error"
    if pyTruthyStr st2.partOutput then
      ((st2.partOutput, none,
        format_user_error "Out of Memory"
          "Video generation ran out of GPU memory. A partial video was saved."
          true (some m)),
       finallyCleanup job_id st2)
    else
      ((none, none,
        format_user_error "Out of Memory"
          "Video generation requires more GPU memory. Try reducing resolution or duration."
          true (some m)),
       finallyCleanup job_id st2)
  | .runtimeError m =>
    let st2 := log_error st "runtime_error"
    ((none, none,
      format_user_error "Generation Error"
        "An error occurred during video generation. You can retry." true (some m)),
     finallyCleanup job_id st2)
  | .timeoutError m =>
    let st2 := log_error st "timeout_error"
    ((none, none,
      format_user_error "Timeout"
        "Video generation timed out. The job has been cancelled." true (some m)),
     finallyCleanup job_id st2)
  | .otherError m =>
    let st2 := log_error st "unexpected_error"
    ((none, none,
      format_user_error "Unexpected Error"
        "An unexpected error occurred. Please check the logs." DEBUG_MODE
        (some ("Traceback (most recent call last):\n" ++ m))),
     finallyCleanup job_id st2)

/-- Success tail of the inner try (app.py lines 169-175): run the retention
cleanup, return the final video, audio path and success message, then the
`finally` block. -/
def finish_success (env : GenEnv) (job_id model_name : String)
    (audio_path : Option String) (final_video : String) (st : AppState) :
    (Option String × Option String × String) × AppState :=
  let st2 := { st with
    outputFiles := cleanup_old_files env.now MAX_FILE_AGE_DAYS MAX_FILES st.outputFiles }
  ((some final_video, audio_path,
    "âœ… Video generated successfully using " ++ model_name),
   finallyCleanup job_id st2)

/-- Music-integration step (app.py lines 153-167): if a music file was given
and exists, try `add_music`; on failure log a warning and fall back to the
silent video. -/
def after_gen (env : GenEnv) (inp : GenInputs) (job_id model_name video_path : String)
    (st : AppState) : (Option String × Option String × String) × AppState :=
  match inp.musicFile with
  | some _ =>
    if env.musicExists then
      match vp_add_music env with
      | .ok merged =>
        finish_success env job_id model_name (some merged) merged
          { st with outputFiles := st.outputFiles ++ [⟨merged, env.now⟩] }
      | .error _ =>
        finish_success env job_id model_name none video_path
          (log_error st "music_integration")
    else finish_success env job_id model_name none video_path st
  | none => finish_success env job_id model_name none video_path st

/-- After a successful model load (app.py lines 138-175): record the loader
state, run generation (which records the artifact on success), dispatch to
the handlers on failure. -/
def after_load (env : GenEnv) (inp : GenInputs) (job_id : String)
    (model : ModelHandle) (model_name : String) (loaderSt : LoaderState)
    (st : AppState) : (Option String × Option String × String) × AppState :=
  let st1 := { st with loader := loaderSt }
  let gen := vp_generate env model st1.partOutput
  let st2 := { st1 with partOutput := gen.2 }
  match gen.1 with
  | .error e => handle_exn e job_id st2
  | .ok video_path =>
    after_gen env inp job_id model_name video_path
      { st2 with outputFiles := st2.outputFiles ++ [⟨video_path, env.now⟩] }

/-- The inner try of `generate_video` (app.py lines 133-232), entered right
after the job was enqueued. -/
def run_inner (env : GenEnv) (inp : GenInputs) (job_id : String) (st : AppState) :
    (Option String × Option String × String) × AppState :=
  match (load_with_fallback env.chain).1 with
  | .error e => handle_exn e job_id st
  | .ok (mn, loaderSt) => after_load env inp job_id mn.1 mn.2 loaderSt st

/-- `generate_video` (app.py lines 62-242): validation, admission control,
inline processing, classified error handling.  Returns the
`(video_path, audio_path, status_message)` triple and the state after the
call. -/
def generate_video (env : GenEnv) (inp : GenInputs) (st : AppState) :
    (Option String × Option String × String) × AppState :=
  let vr := validate inp.prompt inp.duration inp.scene_count inp.resolution
  if vr.valid then
    let job_id := "job_" ++ toString env.nowMs
    if MAX_QUEUE_SIZE ≤ st.jobQueue.length then
      ((none, none, format_user_error "Queue Full"
          "Maximum queue size reached. Please try again later." false none), st)
    else
      match parseResolution inp.resolution with
      | none =>
        ((none, none, format_user_error "System Error"
            "A system error occurred. Please try again." DEBUG_MODE
            (some "Traceback (most recent call last):")),
         log_error st "top_level_error")
      | some wh =>
        let job : GenerationJob :=
          { job_id := job_id, prompt := inp.prompt, duration := inp.duration,
            fps := inp.fps, resolution := wh, music_path := inp.musicFile,
            scene_count := inp.scene_count, timestamp := env.now }
        if st.jobQueue.length < MAX_QUEUE_SIZE then
          run_inner env inp job_id { st with jobQueue := st.jobQueue ++ [job] }
        else
          ((none, none, format_user_error "Queue Full"
              "Could not add job to queue. Please try again." false none), st)
  else
    ((none, none, format_user_error "Validation Error" (vr.error.getD "") false none), st)

/-- The operations a caller can perform against the process. -/
inductive AppOp where
  | gen (env : GenEnv) (inp : GenInputs)
  | status
  | cancel (job_id : String)

/-- State effect of one operation. -/
def stepState : AppOp → AppState → AppState
  | .gen env inp, st => (generate_video env inp st).2
  | .status, st => st
  | .cancel j, st => (cancel_job j st).2

/-- State after a sequence of operations. -/
def runOps (ops : List AppOp) (st : AppState) : AppState :=
  ops.foldl (fun s o => stepState o s) st

/-- The state at process start (all registries empty, no model loaded). -/
def initState : AppState :=
  { jobQueue := [], appActiveJobs := [], qmActiveJobs := [],
    loader := { current_model := none, current_model_name := "none" },
    partOutput := none, outputFiles := [], errorLog := [] }

/-! ## Frame lemmas about the state effects of `generate_video` -/

/-- Context tag logged by each except-clause of the inner try. -/
def exnTag : PyExn → String
  | .outOfMemory _ => "oom_error"
  | .runtimeError _ => "runtime_error"
  | .timeoutError _ => "timeout_error"
  | .otherError _ => "unexpected_error"

lemma handle_exn_state (e : PyExn) (job_id : String) (st : AppState) :
    (handle_exn e job_id st).2 = finallyCleanup job_id (log_error st (exnTag e)) := by
  cases e with
  | outOfMemory m =>
    simp only [handle_exn, exnTag]
    split <;> rfl
  | runtimeError m => rfl
  | timeoutError m => rfl
  | otherError m => rfl

lemma finallyCleanup_jobQueue (job_id : String) (st : AppState) :
    (finallyCleanup job_id st).jobQueue = st.jobQueue := by
  unfold finallyCleanup
  split <;> rfl

lemma finallyCleanup_qm (job_id : String) (st : AppState) :
    (finallyCleanup job_id st).qmActiveJobs = st.qmActiveJobs := by
  unfold finallyCleanup
  split <;> rfl

lemma finallyCleanup_errorLog (job_id : String) (st : AppState) :
    (finallyCleanup job_id st).errorLog = st.errorLog := by
  unfold finallyCleanup
  split <;> rfl

lemma finallyCleanup_app_empty (job_id : String) (st : AppState)
    (h : st.appActiveJobs = []) : (finallyCleanup job_id st).appActiveJobs = [] := by
  unfold finallyCleanup
  split <;> simp [h]

lemma handle_exn_frame (e : PyExn) (job_id : String) (st : AppState) :
    (handle_exn e job_id st).2.jobQueue = st.jobQueue ∧
    (handle_exn e job_id st).2.qmActiveJobs = st.qmActiveJobs ∧
    (st.appActiveJobs = [] → (handle_exn e job_id st).2.appActiveJobs = []) := by
  rw [handle_exn_state]
  exact ⟨finallyCleanup_jobQueue _ _, finallyCleanup_qm _ _,
    fun h => finallyCleanup_app_empty _ _ h⟩

lemma finish_success_frame (env : GenEnv) (job_id model_name : String)
    (audio_path : Option String) (final_video : String) (st : AppState) :
    (finish_success env job_id model_name audio_path final_video st).2.jobQueue = st.jobQueue ∧
    (finish_success env job_id model_name audio_path final_video st).2.qmActiveJobs =
      st.qmActiveJobs ∧
    (st.appActiveJobs = [] →
      (finish_success env job_id model_name audio_path final_video st).2.appActiveJobs = []) := by
  unfold finish_success
  exact ⟨finallyCleanup_jobQueue _ _, finallyCleanup_qm _ _,
    fun h => finallyCleanup_app_empty _ _ h⟩

lemma after_gen_frame (env : GenEnv) (inp : GenInputs)
    (job_id model_name video_path : String) (st : AppState) :
    (after_gen env inp job_id model_name video_path st).2.jobQueue = st.jobQueue ∧
    (after_gen env inp job_id model_name video_path st).2.qmActiveJobs = st.qmActiveJobs ∧
    (st.appActiveJobs = [] →
      (after_gen env inp job_id model_name video_path st).2.appActiveJobs = []) := by
  rcases hmu : inp.musicFile with _ | mf
  · simp only [after_gen, hmu]
    exact finish_success_frame _ _ _ _ _ _
  · simp only [after_gen, hmu]
    split
    · rcases ham : vp_add_music env with e2 | merged
      · simp only [ham]
        exact finish_success_frame _ _ _ _ _ _
      · simp only [ham]
        exact finish_success_frame _ _ _ _ _ _
    · exact finish_success_frame _ _ _ _ _ _

lemma after_load_frame (env : GenEnv) (inp : GenInputs) (job_id : String)
    (model : ModelHandle) (model_name : String) (loaderSt : LoaderState) (st : AppState) :
    (after_load env inp job_id model model_name loaderSt st).2.jobQueue = st.jobQueue ∧
    (after_load env inp job_id model model_name loaderSt st).2.qmActiveJobs =
      st.qmActiveJobs ∧
    (st.appActiveJobs = [] →
      (after_load env inp job_id model model_name loaderSt st).2.appActiveJobs = []) := by
  simp only [after_load]
  rcases hg : (vp_generate env model ({ st with loader := loaderSt } : AppState).partOutput).1
      with e | v
  · simp only [hg]
    exact handle_exn_frame _ _ _
  · simp only [hg]
    exact after_gen_frame _ _ _ _ _ _

lemma run_inner_frame (env : GenEnv) (inp : GenInputs) (job_id : String) (st : AppState) :
    (run_inner env inp job_id st).2.jobQueue = st.jobQueue ∧
    (run_inner env inp job_id st).2.qmActiveJobs = st.qmActiveJobs ∧
    (st.appActiveJobs = [] → (run_inner env inp job_id st).2.appActiveJobs = []) := by
  unfold run_inner
  rcases hl : (load_with_fallback env.chain).1 with e | ⟨⟨model, mname⟩, lst⟩
  · simp only [hl]
    exact handle_exn_frame _ _ _
  · simp only [hl]
    exact after_load_frame _ _ _ _ _ _ _

lemma valid_parse (inp : GenInputs)
    (h : (validate inp.prompt inp.duration inp.scene_count inp.resolution).valid = true) :
    ∃ wh, parseResolution inp.resolution = some wh := by
  have h2 := (validate_valid_iff _ _ _ _).mp h
  simp only [Bool.and_eq_true] at h2
  have h3 := h2.2
  unfold specResolutionOk at h3
  rcases hp : parseResolution inp.resolution with _ | wh
  · rw [hp] at h3
    cases h3
  · exact ⟨wh, rfl⟩

lemma gv_reject_full (env : GenEnv) (inp : GenInputs) (st : AppState)
    (hvalid : (validate inp.prompt inp.duration inp.scene_count inp.resolution).valid = true)
    (hfull : MAX_QUEUE_SIZE ≤ st.jobQueue.length) :
    generate_video env inp st =
      ((none, none, format_user_error "Queue Full"
         "Maximum queue size reached. Please try again later." false none), st) := by
  simp only [generate_video, hvalid, if_true]
  rw [if_pos hfull]

lemma gv_enqueue (env : GenEnv) (inp : GenInputs) (st : AppState) (wh : Int × Int)
    (hvalid : (validate inp.prompt inp.duration inp.scene_count inp.resolution).valid = true)
    (hwh : parseResolution inp.resolution = some wh)
    (hlen : st.jobQueue.length < MAX_QUEUE_SIZE) :
    generate_video env inp st = run_inner env inp ("job_" ++ toString env.nowMs)
      { st with jobQueue := st.jobQueue ++
          [{ job_id := "job_" ++ toString env.nowMs, prompt := inp.prompt,
             duration := inp.duration, fps := inp.fps, resolution := wh,
             music_path := inp.musicFile, scene_count := inp.scene_count,
             timestamp := env.now }] } := by
  simp only [generate_video, hvalid, if_true, hwh]
  rw [if_neg (Nat.not_le.mpr hlen), if_pos hlen]

lemma generate_video_frame (env : GenEnv) (inp : GenInputs) (st : AppState) :
    ((generate_video env inp st).2.jobQueue = st.jobQueue ∨
      (st.jobQueue.length < MAX_QUEUE_SIZE ∧
        ∃ j, (generate_video env inp st).2.jobQueue = st.jobQueue ++ [j])) ∧
    (generate_video env inp st).2.qmActiveJobs = st.qmActiveJobs ∧
    (st.appActiveJobs = [] → (generate_video env inp st).2.appActiveJobs = []) := by
  by_cases hv : (validate inp.prompt inp.duration inp.scene_count inp.resolution).valid = true
  · by_cases hfull : MAX_QUEUE_SIZE ≤ st.jobQueue.length
    · rw [gv_reject_full env inp st hv hfull]
      exact ⟨Or.inl rfl, rfl, fun h => h⟩
    · push_neg at hfull
      rcases hp : parseResolution inp.resolution with _ | wh
      · obtain ⟨wh0, hwh0⟩ := valid_parse inp hv
        rw [hp] at hwh0
        cases hwh0
      · rw [gv_enqueue env inp st wh hv hp hfull]
        refine ⟨Or.inr ⟨hfull, ?_⟩, ?_, ?_⟩
        · exact ⟨_, (run_inner_frame _ _ _ _).1⟩
        · exact (run_inner_frame _ _ _ _).2.1
        · intro h
          exact (run_inner_frame _ _ _ _).2.2 h
  · rw [Bool.not_eq_true] at hv
    simp only [generate_video, hv, Bool.false_eq_true, if_false]
    simp

lemma stepState_queue (op : AppOp) (st : AppState) :
    (stepState op st).jobQueue = st.jobQueue ∨
    (st.jobQueue.length < MAX_QUEUE_SIZE ∧
      ∃ j, (stepState op st).jobQueue = st.jobQueue ++ [j]) := by
  cases op with
  | gen env inp => exact (generate_video_frame env inp st).1
  | status => exact Or.inl rfl
  | cancel j => exact Or.inl rfl

/-- C2: the queue is write-only — every operation either leaves the queue
unchanged or appends one admitted job to it (no operation ever removes a
job), the pending count never decreases, and once the queue holds 50 jobs a
valid submission is rejected as queue-full with the state unchanged (earlier
jobs having finished notwithstanding — inline processing never dequeues). -/
theorem C2_queue_write_only :
    (∀ (op : AppOp) (st : AppState),
        (stepState op st).jobQueue = st.jobQueue ∨
        ∃ j, (stepState op st).jobQueue = st.jobQueue ++ [j]) ∧
    (∀ (op : AppOp) (st : AppState),
        st.jobQueue.length ≤ (stepState op st).jobQueue.length) ∧
    (∀ (env : GenEnv) (inp : GenInputs) (st : AppState),
        (validate inp.prompt inp.duration inp.scene_count inp.resolution).valid = true →
        MAX_QUEUE_SIZE ≤ st.jobQueue.length →
        generate_video env inp st =
          ((none, none, format_user_error "Queue Full"
             "Maximum queue size reached. Please try again later." false none), st)) := by
  refine ⟨?_, ?_, ?_⟩
  · intro op st
    rcases stepState_queue op st with h | ⟨_, j, h⟩
    · exact Or.inl h
    · exact Or.inr ⟨j, h⟩
  · intro op st
    rcases stepState_queue op st with h | ⟨_, j, h⟩
    · rw [h]
    · rw [h]
      simp
  · exact gv_reject_full

/-- A benign environment: one tier that loads, generation raising a plain
`RuntimeError` (admission is unaffected by what happens after enqueueing). -/
def env0 : GenEnv :=
  { nowMs := 0, now := 0,
    chain := [("open-sora", Except.ok ({ partHook := none }, "open-sora"))],
    genOutcome := Except.error (PyExn.runtimeError "boom"),
    musicExists := false, addMusicOutcome := Except.ok () }

/-- The valid example submission. -/
def inp0 : GenInputs :=
  { prompt := "ocean sunset", duration := 5, fps := 24, resolution := "512x512",
    musicFile := none, scene_count := 1 }

/-- A queued job record, to build a full-queue state. -/
def job0 : GenerationJob :=
  { job_id := "job_0", prompt := "ocean sunset", duration := 5, fps := 24,
    resolution := (512, 512), music_path := none, scene_count := 1, timestamp := 0 }

/-- A state whose queue already holds 50 jobs. -/
def st50 : AppState := { initState with jobQueue := List.replicate 50 job0 }

/-- Witness for C2: at a 50-job queue, the valid example submission is
rejected as queue-full with the state unchanged. -/
theorem C2_queue_write_only_witness :
    generate_video env0 inp0 st50 =
      ((none, none, format_user_error "Queue Full"
         "Maximum queue size reached. Please try again later." false none), st50) :=
  C2_queue_write_only.2.2 env0 inp0 st50 (by decide) (by decide)

lemma stepState_len_le (op : AppOp) (st : AppState)
    (h : st.jobQueue.length ≤ MAX_QUEUE_SIZE) :
    (stepState op st).jobQueue.length ≤ MAX_QUEUE_SIZE := by
  rcases stepState_queue op st with he | ⟨hlt, j, he⟩
  · rw [he]
    exact h
  · rw [he]
    simp only [List.length_append, List.length_cons, List.length_nil]
    omega

lemma runOps_len_le (ops : List AppOp) : ∀ st : AppState,
    st.jobQueue.length ≤ MAX_QUEUE_SIZE →
    (runOps ops st).jobQueue.length ≤ MAX_QUEUE_SIZE := by
  induction ops with
  | nil => intro st h; exact h
  | cons op rest ih =>
    intro st h
    exact ih (stepState op st) (stepState_len_le op st h)

lemma gv_accept_len (env : GenEnv) (inp : GenInputs) (st : AppState)
    (hv : (validate inp.prompt inp.duration inp.scene_count inp.resolution).valid = true)
    (hlen : st.jobQueue.length < MAX_QUEUE_SIZE) :
    (generate_video env inp st).2.jobQueue.length = st.jobQueue.length + 1 := by
  obtain ⟨wh, hwh⟩ := valid_parse inp hv
  rw [gv_enqueue env inp st wh hv hwh hlen]
  rw [(run_inner_frame _ _ _ _).1]
  simp

lemma submit_repeat (env : GenEnv) (inp : GenInputs)
    (hv : (validate inp.prompt inp.duration inp.scene_count inp.resolution).valid = true) :
    ∀ (k : Nat) (st : AppState), st.jobQueue.length + k ≤ MAX_QUEUE_SIZE →
    (runOps (List.replicate k (AppOp.gen env inp)) st).jobQueue.length =
      st.jobQueue.length + k := by
  intro k
  induction k with
  | zero => intro st _; simp [runOps]
  | succ n ih =>
    intro st h
    rw [List.replicate_succ]
    have hstep : (stepState (AppOp.gen env inp) st).jobQueue.length =
        st.jobQueue.length + 1 := gv_accept_len env inp st hv (by omega)
    have hr : runOps (AppOp.gen env inp :: List.replicate n (AppOp.gen env inp)) st =
        runOps (List.replicate n (AppOp.gen env inp)) (stepState (AppOp.gen env inp) st) := rfl
    rw [hr, ih (stepState (AppOp.gen env inp) st) (by rw [hstep]; omega), hstep]
    omega

/-- C3: the queue never exceeds its fixed capacity of 50 (per step, and from
the start state); a submission arriving at a full queue is rejected with the
queue-full message, the state unchanged, no job tracked; and submitting
capacity+1 valid jobs to the empty system accepts exactly 50 (each grows the
pending count by one) and rejects the 51st. -/
theorem C3_admission_bounded :
    (∀ (op : AppOp) (st : AppState), st.jobQueue.length ≤ MAX_QUEUE_SIZE →
        (stepState op st).jobQueue.length ≤ MAX_QUEUE_SIZE) ∧
    (∀ ops : List AppOp, (runOps ops initState).jobQueue.length ≤ MAX_QUEUE_SIZE) ∧
    (∀ (env : GenEnv) (inp : GenInputs) (st : AppState),
        (validate inp.prompt inp.duration inp.scene_count inp.resolution).valid = true →
        MAX_QUEUE_SIZE ≤ st.jobQueue.length →
        generate_video env inp st =
          ((none, none, format_user_error "Queue Full"
             "Maximum queue size reached. Please try again later." false none), st)) ∧
    (∀ (env : GenEnv) (inp : GenInputs),
        (validate inp.prompt inp.duration inp.scene_count inp.resolution).valid = true →
        ∀ k : Nat, k ≤ MAX_QUEUE_SIZE →
        (runOps (List.replicate k (AppOp.gen env inp)) initState).jobQueue.length = k) ∧
    (∀ (env : GenEnv) (inp : GenInputs),
        (validate inp.prompt inp.duration inp.scene_count inp.resolution).valid = true →
        generate_video env inp
            (runOps (List.replicate MAX_QUEUE_SIZE (AppOp.gen env inp)) initState) =
          ((none, none, format_user_error "Queue Full"
             "Maximum queue size reached. Please try again later." false none),
           runOps (List.replicate MAX_QUEUE_SIZE (AppOp.gen env inp)) initState)) := by
  have hcount : ∀ (env : GenEnv) (inp : GenInputs),
      (validate inp.prompt inp.duration inp.scene_count inp.resolution).valid = true →
      ∀ k : Nat, k ≤ MAX_QUEUE_SIZE →
      (runOps (List.replicate k (AppOp.gen env inp)) initState).jobQueue.length = k := by
    intro env inp hv k hk
    have h := submit_repeat env inp hv k initState (by simp [initState]; omega)
    simpa [initState] using h
  refine ⟨stepState_len_le, ?_, gv_reject_full, hcount, ?_⟩
  · intro ops
    exact runOps_len_le ops initState (by simp [initState])
  · intro env inp hv
    apply gv_reject_full env inp _ hv
    rw [hcount env inp hv MAX_QUEUE_SIZE (le_refl _)]

/-- Witness for C3: three valid submissions to the empty system give a
pending count of three. -/
theorem C3_admission_bounded_witness :
    (runOps (List.replicate 3 (AppOp.gen env0 inp0)) initState).jobQueue.length = 3 :=
  C3_admission_bounded.2.2.2.1 env0 inp0 (by decide) 3 (by decide)

lemma step_preserves_empty (op : AppOp) (st : AppState)
    (h1 : st.appActiveJobs = []) (h2 : st.qmActiveJobs = []) :
    (stepState op st).appActiveJobs = [] ∧ (stepState op st).qmActiveJobs = [] := by
  cases op with
  | gen env inp =>
    refine ⟨(generate_video_frame env inp st).2.2 h1, ?_⟩
    rw [show (stepState (AppOp.gen env inp) st).qmActiveJobs =
      (generate_video env inp st).2.qmActiveJobs from rfl]
    rw [(generate_video_frame env inp st).2.1]
    exact h2
  | status => exact ⟨h1, h2⟩
  | cancel j =>
    constructor
    · exact h1
    · show (qm_cancel_job j st.qmActiveJobs).2 = []
      rw [h2]
      rfl

/-- C4: in every reachable state both active-job maps (the app-level
tracking dict and `QueueManager.active_jobs`) are empty, so the status
report always shows 0 active jobs and `cancel_job` returns false for every
job id. -/
theorem C4_active_jobs_empty :
    ∀ ops : List AppOp,
      (runOps ops initState).appActiveJobs = [] ∧
      (runOps ops initState).qmActiveJobs = [] ∧
      qm_get_status (runOps ops initState) =
        "Queue: " ++ toString (runOps ops initState).jobQueue.length ++
          " pending, 0 active" ∧
      ∀ j, (qm_cancel_job j (runOps ops initState).qmActiveJobs).1 = false := by
  have main : ∀ (ops : List AppOp) (st : AppState), st.appActiveJobs = [] →
      st.qmActiveJobs = [] →
      (runOps ops st).appActiveJobs = [] ∧ (runOps ops st).qmActiveJobs = [] := by
    intro ops
    induction ops with
    | nil => intro st h1 h2; exact ⟨h1, h2⟩
    | cons op rest ih =>
      intro st h1 h2
      obtain ⟨g1, g2⟩ := step_preserves_empty op st h1 h2
      exact ih (stepState op st) g1 g2
  intro ops
  obtain ⟨h1, h2⟩ := main ops initState rfl rfl
  refine ⟨h1, h2, ?_, ?_⟩
  · unfold qm_get_status
    rw [h2]
    rw [show toString (List.length ([] : List (String × Bool))) = "0" from rfl]
    conv_lhs => rw [String.append_assoc, String.append_assoc]
    rfl
  · intro j
    rw [h2]
    rfl

lemma fue_shape (t msg : String) (b : Bool) (td : Option String) :
    ∃ r, format_user_error t msg b td = "❌ " ++ r := by
  unfold format_user_error
  split
  · refine ⟨t ++ ("\n\n" ++ (msg ++ ("\n\nTechnical Details:\n" ++ td.getD ""))), ?_⟩
    rw [String.append_assoc, String.append_assoc, String.append_assoc, String.append_assoc]
  · refine ⟨t ++ ("\n\n" ++ msg), ?_⟩
    rw [String.append_assoc, String.append_assoc]

lemma handle_exn_msg (e : PyExn) (job_id : String) (st : AppState) :
    ∃ r, (handle_exn e job_id st).1.2.2 = "❌ " ++ r := by
  cases e with
  | outOfMemory m =>
    simp only [handle_exn]
    split
    · exact fue_shape "Out of Memory"
        "Video generation ran out of GPU memory. A partial video was saved." true (some m)
    · exact fue_shape "Out of Memory"
        "Video generation requires more GPU memory. Try reducing resolution or duration."
        true (some m)
  | runtimeError m =>
    exact fue_shape "Generation Error"
      "An error occurred during video generation. You can retry." true (some m)
  | timeoutError m =>
    exact fue_shape "Timeout"
      "Video generation timed out. The job has been cancelled." true (some m)
  | otherError m =>
    exact fue_shape "Unexpected Error"
      "An unexpected error occurred. Please check the logs." DEBUG_MODE
      (some ("Traceback (most recent call last):\n" ++ m))

lemma after_gen_msg (env : GenEnv) (inp : GenInputs)
    (job_id model_name video_path : String) (st : AppState) :
    (after_gen env inp job_id model_name video_path st).1.2.2 =
      "âœ… Video generated successfully using " ++ model_name := by
  rcases hmu : inp.musicFile with _ | mf
  · simp only [after_gen, hmu]
    rfl
  · simp only [after_gen, hmu]
    split
    · rcases ham : vp_add_music env with e2 | merged <;> simp only [ham] <;> rfl
    · rfl

lemma after_load_msg (env : GenEnv) (inp : GenInputs) (job_id : String)
    (model : ModelHandle) (model_name : String) (lst : LoaderState) (st : AppState) :
    (∃ r, (after_load env inp job_id model model_name lst st).1.2.2 = "❌ " ++ r) ∨
    (∃ mn, (after_load env inp job_id model model_name lst st).1.2.2 =
      "âœ… Video generated successfully using " ++ mn) := by
  simp only [after_load]
  rcases hg : (vp_generate env model ({ st with loader := lst } : AppState).partOutput).1
      with e | v
  · simp only [hg]
    exact Or.inl (handle_exn_msg _ _ _)
  · simp only [hg]
    exact Or.inr ⟨model_name, after_gen_msg _ _ _ _ _ _⟩

lemma run_inner_msg (env : GenEnv) (inp : GenInputs) (job_id : String) (st : AppState) :
    (∃ r, (run_inner env inp job_id st).1.2.2 = "❌ " ++ r) ∨
    (∃ mn, (run_inner env inp job_id st).1.2.2 =
      "âœ… Video generated successfully using " ++ mn) := by
  unfold run_inner
  rcases hl : (load_with_fallback env.chain).1 with e | ⟨⟨model, mname⟩, lst⟩
  · simp only [hl]
    exact Or.inl (handle_exn_msg _ _ _)
  · simp only [hl]
    exact after_load_msg _ _ _ _ _ _ _

lemma gv_msg (env : GenEnv) (inp : GenInputs) (st : AppState) :
    (∃ r, (generate_video env inp st).1.2.2 = "❌ " ++ r) ∨
    (∃ mn, (generate_video env inp st).1.2.2 =
      "âœ… Video generated successfully using " ++ mn) := by
  by_cases hv : (validate inp.prompt inp.duration inp.scene_count inp.resolution).valid = true
  · by_cases hfull : MAX_QUEUE_SIZE ≤ st.jobQueue.length
    · rw [gv_reject_full env inp st hv hfull]
      exact Or.inl (fue_shape "Queue Full"
        "Maximum queue size reached. Please try again later." false none)
    · push_neg at hfull
      rcases hp : parseResolution inp.resolution with _ | wh
      · obtain ⟨wh0, hwh0⟩ := valid_parse inp hv
        rw [hp] at hwh0
        cases hwh0
      · rw [gv_enqueue env inp st wh hv hp hfull]
        exact run_inner_msg _ _ _ _
  · rw [Bool.not_eq_true] at hv
    simp only [generate_video, hv, Bool.false_eq_true, if_false]
    exact Or.inl (fue_shape "Validation Error"
      ((validate inp.prompt inp.duration inp.scene_count inp.resolution).error.getD "")
      false none)

/-- C9: for every input and every combination of stage outcomes (validation,
admission, model loading, generation, music muxing, cleanup — including
every exception any of them can raise), `generate_video` returns a triple of
optional video path, optional audio path and a status message, and that
message is always a classified rendering: either a `"❌ "`-prefixed error
message or the success message; no exception escapes to the caller. -/
theorem C9_no_exception_escape :
    ∀ (env : GenEnv) (inp : GenInputs) (st : AppState),
      ∃ (v a : Option String) (msg : String) (st2 : AppState),
        generate_video env inp st = ((v, a, msg), st2) ∧
        ((∃ r, msg = "❌ " ++ r) ∨
         (∃ mn, msg = "âœ… Video generated successfully using " ++ mn)) := by
  intro env inp st
  exact ⟨(generate_video env inp st).1.1, (generate_video env inp st).1.2.1,
    (generate_video env inp st).1.2.2, (generate_video env inp st).2, rfl,
    gv_msg env inp st⟩

/-- C8: when generation raises the GPU out-of-memory error, `generate_video`
consults the processor's partial output: if one is present (truthy) it is
returned as the video result with the warning message that a partial video
was saved; otherwise no video path is returned and the out-of-memory error
message is produced; in both cases the error is logged with the
`"oom_error"` context. -/
theorem C8_oom_partial_recovery (env : GenEnv) (inp : GenInputs) (st : AppState)
    (m : String) (model : ModelHandle) (mname : String) (lst : LoaderState)
    (hvalid : (validate inp.prompt inp.duration inp.scene_count inp.resolution).valid = true)
    (hlen : st.jobQueue.length < MAX_QUEUE_SIZE)
    (hload : (load_with_fallback env.chain).1 = Except.ok ((model, mname), lst))
    (hgen : env.genOutcome = Except.error (PyExn.outOfMemory m)) :
    (pyTruthyStr (vp_generate env model st.partOutput).2 = true →
      (generate_video env inp st).1 =
        ((vp_generate env model st.partOutput).2, none,
         format_user_error "Out of Memory"
           "Video generation ran out of GPU memory. A partial video was saved."
           true (some m))) ∧
    (pyTruthyStr (vp_generate env model st.partOutput).2 = false →
      (generate_video env inp st).1 =
        (none, none,
         format_user_error "Out of Memory"
           "Video generation requires more GPU memory. Try reducing resolution or duration."
           true (some m))) ∧
    (generate_video env inp st).2.errorLog = st.errorLog ++ ["oom_error"] := by
  obtain ⟨wh, hwh⟩ := valid_parse inp hvalid
  have hgv := gv_enqueue env inp st wh hvalid hwh hlen
  refine ⟨?_, ?_, ?_⟩
  · intro hpt
    rw [hgv]
    simp only [run_inner, hload, after_load, vp_generate, hgen, handle_exn, log_error]
    simp only [vp_generate, hgen] at hpt
    simp only [hpt, if_true]
  · intro hpt
    rw [hgv]
    simp only [run_inner, hload, after_load, vp_generate, hgen, handle_exn, log_error]
    simp only [vp_generate, hgen] at hpt
    simp only [hpt, Bool.false_eq_true, if_false]
  · rw [hgv]
    simp only [run_inner, hload, after_load, vp_generate, hgen, handle_exn, log_error]
    split
    · rw [finallyCleanup_errorLog]
    · rw [finallyCleanup_errorLog]

/-- A model exposing `get_partial_output` with a saved partial artifact. -/
def modelP : ModelHandle := { partHook := some (some "outputs/partial.mp4") }

/-- Environment whose single tier loads `modelP` and whose generation raises
the GPU out-of-memory error. -/
def envOOM : GenEnv :=
  { nowMs := 0, now := 0,
    chain := [("open-sora", Except.ok (modelP, "open-sora"))],
    genOutcome := Except.error (PyExn.outOfMemory "CUDA out of memory"),
    musicExists := false, addMusicOutcome := Except.ok () }

/-- Witness for C8: with a truthy partial output present, the partial path
is returned with the partial-video warning, and the error is logged. -/
theorem C8_oom_partial_recovery_witness :
    pyTruthyStr (vp_generate envOOM modelP initState.partOutput).2 = true ∧
    (generate_video envOOM inp0 initState).1 =
      ((vp_generate envOOM modelP initState.partOutput).2, none,
       format_user_error "Out of Memory"
         "Video generation ran out of GPU memory. A partial video was saved."
         true (some "CUDA out of memory")) ∧
    (generate_video envOOM inp0 initState).2.errorLog =
      initState.errorLog ++ ["oom_error"] :=
  ⟨by decide,
   (C8_oom_partial_recovery envOOM inp0 initState "CUDA out of memory" modelP "open-sora"
      { current_model := some modelP, current_model_name := "open-sora" }
      (by decide) (by decide) rfl rfl).1 (by decide),
   (C8_oom_partial_recovery envOOM inp0 initState "CUDA out of memory" modelP "open-sora"
      { current_model := some modelP, current_model_name := "open-sora" }
      (by decide) (by decide) rfl rfl).2.2⟩
